import Mathlib

/-!
Shallow embedding of the Petrainer shock-collar driver (ShockCollar.cpp /
ShockCollar.h): the packet codec, the pulse transmitter, the command
session loop and the receiver decode state machine, together with proofs
of the behavioural properties stated in the design documentation.

Machine integers are modelled as `Nat`/`Int`; the 32-bit unsigned-minus-
signed-reinterpretation arithmetic of the AVR `long`/`unsigned long`
types is made explicit where it matters (`sub32`).
-/

namespace Collar

/-! ### Data types (ShockCollar.h)

`collar_cmd` enumerators; keys are 16-bit, power is carried as a byte. -/

def COLLAR_NONE : Nat := 0
def COLLAR_LED : Nat := 1
def COLLAR_BEEP : Nat := 2
def COLLAR_VIB : Nat := 3
def COLLAR_ZAP : Nat := 4

/-! ### Packet construction (ShockCollar::packet)

The channel switch and command switch of `ShockCollar::packet` set up the
composite bytes `h` (pkt[0]: lead-in, channel, mode) and `t` (pkt[4]:
ModeX, ChanX, trailer).  `chan` is a (signed) `char`, modelled as `Int`;
the command is the `collar_cmd` enumeration, modelled as `Nat`. -/

def chanCodes (chan : Int) : Option (Nat × Nat) :=
  if chan = 1 then some (0b10000000, 0b00001110)
  else if chan = 2 then some (0b11110000, 0b00000000)
  else none

def cmdCodes (cmd : Nat) : Option (Nat × Nat) :=
  if cmd = COLLAR_LED then some (0b00001000, 0b11100000)
  else if cmd = COLLAR_BEEP then some (0b00000100, 0b11010000)
  else if cmd = COLLAR_VIB then some (0b00000010, 0b10110000)
  else if cmd = COLLAR_ZAP then some (0b00000001, 0b01110000)
  else none

/-- `ShockCollar::packet`.  The function first forces `pkt[0] = 0`
("force invalid packet"), returns 0 on a bad channel or command, and
otherwise overwrites all five bytes and returns 1.  Byte writes model the
`unsigned char` truncation with `% 256`; `key / 256` is `key >> 8`. -/
def packet (pkt : List Nat) (key : Nat) (chan : Int) (cmd : Nat) (pwr : Nat) :
    Int × List Nat :=
  let pkt0 := pkt.set 0 0
  match chanCodes chan with
  | none => (0, pkt0)
  | some (h, t) =>
    match cmdCodes cmd with
    | none => (0, pkt0)
    | some (hm, tm) =>
      (1, ((((pkt0.set 0 (h ||| hm)).set 1 (key / 256 % 256)).set
            2 (key % 256)).set 3 (pwr % 256)).set 4 (t ||| tm))

/-! ### Pulse transmitter (ShockCollar::sendpulse / ShockCollar::send)

`sendpulse` keeps a deadline clock `clk` in lock-step with `micros()`:
it waits until `clk`, drives the pin high for `on - 2` microseconds,
drops it, and advances `clk` by the nominal `on + off`.  We model the
pair (deadline clock, actual time); `d` is the (arbitrary) extra delay
incurred by the call itself, so that independence of the clock from
real-time overruns can be stated. -/

def sendpulse (s : Int × Int) (tOn tOff d : Int) : Int × Int :=
  (s.1 + tOn + tOff, max s.2 s.1 + (tOn - 2) + d)

/-- The 40-bit payload loop of `ShockCollar::send`:
`(pkt[bit >> 3] >> (7 - (bit & 7))) & 1` selects the bit, high-order
first; a one is `sendpulse(clk, 750, 250)`, a zero `sendpulse(clk, 250, 750)`. -/
def sendBits (pkt : List Nat) (d : Nat → Int) : Nat → Nat → Int × Int → Int × Int
  | _, 0, s => s
  | bitn, n + 1, s =>
    let bv := (pkt[bitn >>> 3]! >>> (7 - (bitn &&& 7))) &&& 1
    let s' := if bv = 1 then sendpulse s 750 250 (d bitn)
              else sendpulse s 250 750 (d bitn)
    sendBits pkt d (bitn + 1) n s'

/-- `ShockCollar::send`: ignore an invalid packet (`!(pkt[0] & 0x80)`),
otherwise seed the clock at the current time `t0`, send the start pulse
(1500, 750), the 40 data bits, and the second trailer bit as a zero
(250, 750).  Returns the final (deadline clock, actual time), or `none`
when nothing is sent. -/
def send (pkt : List Nat) (t0 : Int) (d : Nat → Int) : Option (Int × Int) :=
  if pkt[0]! &&& 128 = 0 then none
  else
    let s0 := sendpulse (t0, t0) 1500 750 (d 40)
    let s1 := sendBits pkt d 0 40 s0
    some (sendpulse s1 250 750 (d 41))

/-! ### Command session (ShockCollar::command)

The session loop checks the interrupt poll, then the budget
(`durn >= 0 && millis() - t >= durn` or `durn < 0 && ++durn >= 0`), and
otherwise sends the packet(s) and iterates.  `intr i` is the interrupt
poll at iteration `i`, `elapsed i` the value of `millis() - t` there;
`fuel` bounds the unrolling (`none` = still looping).  The result pairs
the return code with the number of frame-send rounds performed. -/

def commandLoop (intr : Nat → Bool) (elapsed : Nat → Nat) :
    Int → Nat → Nat → Nat → Option (Nat × Nat)
  | _, _, _, 0 => none
  | durn, i, sends, fuel + 1 =>
    if intr i then some (2, sends)
    else if 0 ≤ durn ∧ durn ≤ (elapsed i : Int) then some (1, sends)
    else if durn < 0 ∧ 0 ≤ durn + 1 then some (1, sends)
    else commandLoop intr elapsed (if durn < 0 then durn + 1 else durn)
           (i + 1) (sends + 1) fuel

/-- `ShockCollar::command`: build the packet(s) for the selected
channel(s), returning 0 on a packet failure, then run the send loop. -/
def command (key : Nat) (intr : Nat → Bool) (elapsed : Nat → Nat)
    (cmd : Nat) (chan : Nat) (pwr : Nat) (durn : Int) (fuel : Nat) :
    Option (Nat × Nat) :=
  if chan &&& 1 ≠ 0 ∧ (packet [0, 0, 0, 0, 0] key 1 cmd pwr).1 = 0 then some (0, 0)
  else if chan &&& 2 ≠ 0 ∧ (packet [0, 0, 0, 0, 0] key 2 cmd pwr).1 = 0 then some (0, 0)
  else commandLoop intr elapsed durn 0 0 fuel

/-! ### Receiver (ShockCollarRemote)

Timestamps come from `micros()` (an `unsigned long`); every difference
taken in the C code is computed in 32-bit arithmetic and then read as a
signed `long`.  `sub32 a b` is that signed reinterpretation of `a - b`. -/

def toSigned32 (n : Nat) : Int :=
  if n % 4294967296 < 2147483648 then ((n % 4294967296 : Nat) : Int)
  else ((n % 4294967296 : Nat) : Int) - 4294967296

def sub32 (a b : Nat) : Int :=
  toSigned32 (a + 4294967296 - b % 4294967296)

/-- The fields of `ShockCollarRemote`: packet buffer, bit counter, pulse
start / packet start / packet end times, last pin state, expected-key
filter, and the public decoded (key, chan, command, power). -/
structure RemoteState where
  pkt : List Nat
  bit : Nat
  pt : Nat
  st : Nat
  et : Nat
  state : Nat
  expect_key : Nat
  key : Nat
  chan : Nat
  command : Nat
  power : Nat
deriving Repr, DecidableEq

/-- `ShockCollarRemote::begin` (pin setup aside): zero the timers, idle
the pin state, invalidate the bit counter, accept any key. -/
def remoteBegin (s : RemoteState) : RemoteState :=
  { s with pt := 0, st := 0, et := 0, state := 0, bit := 99, expect_key := 0 }

/-- The mode/complement cross-check of `ShockCollarRemote::receive`
(the second validation block): the mode nibble `m` and the ModeX nibble
`mx` must agree per the fixed table, else the frame is rejected. -/
def decodeMode (k ch p m mx : Nat) : Option (Nat × Nat × Nat × Nat) :=
  if m = 0b1000 ∧ mx = 0b1110 then some (k, ch, COLLAR_LED, p)
  else if m = 0b0100 ∧ mx = 0b1101 then some (k, ch, COLLAR_BEEP, p)
  else if m = 0b0010 ∧ mx = 0b1011 then some (k, ch, COLLAR_VIB, p)
  else if m = 0b0001 ∧ mx = 0b0111 then some (k, ch, COLLAR_ZAP, p)
  else none

/-- The field extraction and validation of `ShockCollarRemote::receive`
(lines 276-299): split the packet into channel/mode/key/power/ModeX/ChanX,
apply the key filter (`expect_key && k != expect_key`), then the
channel+lead-in+trailer check and the mode cross-check.  The key is
`(pkt[1] << 8) | pkt[2]` on byte values, i.e. `pkt[1]*256 + pkt[2]`. -/
def decodeFrame (expect : Nat) (pkt : List Nat) : Option (Nat × Nat × Nat × Nat) :=
  let c := pkt[0]! / 16        -- pkt[0] >> 4
  let m := pkt[0]! % 16        -- pkt[0] & 0xf
  let k := (pkt[1]! % 256) * 256 + pkt[2]! % 256
  let p := pkt[3]!
  let mx := pkt[4]! / 16       -- pkt[4] >> 4
  let cx := pkt[4]! % 16       -- pkt[4] & 0x0f
  if expect ≠ 0 ∧ k ≠ expect then none
  else if c = 0b1000 ∧ cx = 0b1110 then decodeMode k 1 p m mx
  else if c = 0b1111 ∧ cx = 0b0000 then decodeMode k 2 p m mx
  else none

/-- The tail of `ShockCollarRemote::receive` after a data bit has been
classified (value `bv`, falling edge at time `ct`): ignore stray bits
(`bit >= 40`), store the bit high-order first, and at exactly 40 bits
gate on the frame duration, decode, and apply repeat suppression. -/
def afterBit (s : RemoteState) (bv : Nat) (ct : Nat) : Nat × RemoteState :=
  if 40 ≤ s.bit then (0, s)
  else
    let s2 := { s with
      pkt := s.pkt.set (s.bit / 8)                 -- pkt[bit >> 3]
        (s.pkt[s.bit / 8]! ||| (bv <<< (7 - s.bit % 8))) }  -- |= b << (7-(bit&7))
    let t := sub32 ct s2.st
    let s3 := { s2 with bit := s2.bit + 1 }
    if s3.bit ≠ 40 ∨ t < 37000 ∨ 42000 < t then (0, s3)
    else
      match decodeFrame s3.expect_key s3.pkt with
      | none => (0, s3)
      | some (k, c, cmd, p) =>
        let t2 := sub32 s3.st s3.et
        let s4 := { s3 with et := ct }
        if t2 < 120000 ∧ k = s4.key ∧ c = s4.chan ∧ cmd = s4.command ∧ p = s4.power
        then (2, s4)
        else (1, { s4 with key := k, chan := c, command := cmd, power := p })

/-- `ShockCollarRemote::receive`, driven by one pin sample: `b` is the
pin level read at time `ct`.  No change: done.  Rising edge: record the
pulse start.  Falling edge: classify the pulse width as a 0 bit, a 1 bit,
a start marker (erase buffer, reset counter, record start time) or
noise. -/
def receive (s : RemoteState) (b : Nat) (ct : Nat) : Nat × RemoteState :=
  if b = s.state then (0, s)
  else
    let s1 := { s with state := b }
    if b = 1 then (0, { s1 with pt := ct })
    else
      let t := sub32 ct s1.pt
      if 100 < t ∧ t < 400 then afterBit s1 0 ct
      else if 600 < t ∧ t < 900 then afterBit s1 1 ct
      else if 1300 < t ∧ t < 1700 then
        (0, { s1 with pkt := [0, 0, 0, 0, 0], bit := 0, st := ct })
      else (0, s1)

/-! ## Theorems -/

/-- C1 (amended): channel 1, key 0xABCD, ZAP, power 0x64 encodes to the
frame `81 AB CD 64 7E` (byte 4 carries ModeX `0111`, ChanX `111` and the
stored trailer bit `0`, i.e. `0x7E`, matching the worked example in the
source comment). -/
theorem packet_example_vector :
    packet [0, 0, 0, 0, 0] 0xABCD 1 COLLAR_ZAP 0x64 = (1, [0x81, 0xAB, 0xCD, 0x64, 0x7E]) := by
  decide

/-- C1 (counterexample to the claim as stated): the frame produced for
channel 1, key 0xABCD, ZAP, power 0x64 is not `81 AB CD 64 70` — its
fifth byte is `0x7E`, not `0x70`. -/
theorem packet_example_byte4_ne :
    (packet [0, 0, 0, 0, 0] 0xABCD 1 COLLAR_ZAP 0x64).2 ≠ [0x81, 0xAB, 0xCD, 0x64, 0x70] := by
  decide

/-- C2: for every 16-bit key, channel in {1,2}, command in
{LED, BEEP, VIB, ZAP} and power in [0,255], `ShockCollar::packet`
succeeds and the receiver's field extraction and validation
(`decodeFrame`, with no key filter) recovers the identical
(key, channel, command, power) tuple. -/
theorem packet_decode_roundtrip (b0 b1 b2 b3 b4 key : Nat) (chan : Int) (cmd pwr : Nat)
    (hkey : key < 65536) (hpwr : pwr < 256)
    (hchan : chan = 1 ∨ chan = 2)
    (hcmd : cmd = COLLAR_LED ∨ cmd = COLLAR_BEEP ∨ cmd = COLLAR_VIB ∨ cmd = COLLAR_ZAP) :
    (packet [b0, b1, b2, b3, b4] key chan cmd pwr).1 = 1 ∧
    decodeFrame 0 (packet [b0, b1, b2, b3, b4] key chan cmd pwr).2 =
      some (key, chan.toNat, cmd, pwr) := by
  rcases hchan with rfl | rfl <;> rcases hcmd with rfl | rfl | rfl | rfl <;>
    simp [packet, chanCodes, cmdCodes, decodeFrame, decodeMode,
      COLLAR_LED, COLLAR_BEEP, COLLAR_VIB, COLLAR_ZAP] <;>
    omega

/-- C2 witness: the round trip at key 0xABCD, channel 1, ZAP, power 100. -/
theorem packet_decode_roundtrip_witness :
    (packet [0, 0, 0, 0, 0] 43981 1 COLLAR_ZAP 100).1 = 1 ∧
    decodeFrame 0 (packet [0, 0, 0, 0, 0] 43981 1 COLLAR_ZAP 100).2 =
      some (43981, (1 : Int).toNat, COLLAR_ZAP, 100) :=
  packet_decode_roundtrip 0 0 0 0 0 43981 1 COLLAR_ZAP 100 (by decide) (by decide)
    (Or.inl rfl) (Or.inr (Or.inr (Or.inr rfl)))

/-- C3: `ShockCollar::command` with the keepalive's own budget `durn = -3`
(magnitude N = 3), valid parameters and no interruption returns success
1 after only 2 frame-send rounds, not the 3 the negative-budget contract
promises: the loop pre-increments `durn` before each round, so a budget
of magnitude N performs N - 1 rounds. -/
theorem command_negative_budget_offbyone :
    command 0x1234 (fun _ => false) (fun _ => 0) COLLAR_LED 3 50 (-3) 10 = some (1, 2) := by
  decide

/-- The general form of the off-by-one: with no interruption, a negative
budget of magnitude N ≥ 1 terminates with success after exactly N - 1
frame-send rounds (for any fuel ≥ N). -/
theorem commandLoop_negative_budget (intr : Nat → Bool) (elapsed : Nat → Nat)
    (hintr : ∀ i, intr i = false) :
    ∀ (N i sends fuel : Nat), 1 ≤ N → N ≤ fuel →
      commandLoop intr elapsed (-(N : Int)) i sends fuel = some (1, sends + (N - 1)) := by
  intro N
  induction N with
  | zero => omega
  | succ n ih =>
    intro i sends fuel h1 h2
    obtain ⟨f, rfl⟩ : ∃ f, fuel = f + 1 := ⟨fuel - 1, by omega⟩
    have hc2 : ¬ ((0 : Int) ≤ -((n + 1 : Nat) : Int) ∧
        -((n + 1 : Nat) : Int) ≤ (elapsed i : Int)) := by
      push_cast; omega
    by_cases hn : n = 0
    · subst hn
      simp [commandLoop, hintr, hc2]
    · have hc3 : ¬ (-((n + 1 : Nat) : Int) < 0 ∧ (0 : Int) ≤ -((n + 1 : Nat) : Int) + 1) := by
        push_cast; omega
      have hc4 : -((n + 1 : Nat) : Int) < 0 := by push_cast; omega
      have harg : (-((n + 1 : Nat) : Int) + 1) = -((n : Nat) : Int) := by push_cast; omega
      have hrec := ih (i + 1) (sends + 1) f (by omega) (by omega)
      have hsum : sends + 1 + (n - 1) = sends + (n + 1 - 1) := by omega
      simp only [commandLoop, hintr, Bool.false_eq_true, if_false, hc2, hc3]
      rw [if_pos hc4, harg, hrec, hsum]

/-- C4 (counterexample to the claim as stated): `ShockCollar::packet`
with an invalid channel does have a side effect on the caller's buffer —
the function zeroes byte 0 ("force invalid packet") before validating,
so a buffer that held `129 1 2 3 4` comes back as `0 1 2 3 4`. -/
theorem packet_invalid_chan_changes_buffer :
    packet [129, 1, 2, 3, 4] 0 3 COLLAR_LED 0 = (0, [0, 1, 2, 3, 4]) ∧
    ([0, 1, 2, 3, 4] : List Nat) ≠ [129, 1, 2, 3, 4] := by
  decide

/-- C4 (amended): for any channel outside {1,2} or command outside
{LED, BEEP, VIB, ZAP}, `ShockCollar::packet` returns 0 and produces no
frame; its only effect on the caller's buffer is writing the
invalid-packet sentinel 0 into byte 0, leaving bytes 1-4 unchanged. -/
theorem packet_invalid_writes_sentinel (b0 b1 b2 b3 b4 key : Nat) (chan : Int) (cmd pwr : Nat)
    (h : (chan ≠ 1 ∧ chan ≠ 2) ∨
      (cmd ≠ COLLAR_LED ∧ cmd ≠ COLLAR_BEEP ∧ cmd ≠ COLLAR_VIB ∧ cmd ≠ COLLAR_ZAP)) :
    packet [b0, b1, b2, b3, b4] key chan cmd pwr = (0, [0, b1, b2, b3, b4]) := by
  rcases h with ⟨h1, h2⟩ | ⟨h1, h2, h3, h4⟩
  · simp [packet, chanCodes, h1, h2]
  · rcases hc : chanCodes chan with _ | ⟨h, t⟩ <;>
      simp [packet, hc, cmdCodes, h1, h2, h3, h4]

/-- C4 witness: channel 3 is rejected and byte 0 is zeroed. -/
theorem packet_invalid_writes_sentinel_witness :
    packet [129, 1, 2, 3, 4] 7 3 COLLAR_LED 9 = (0, [0, 1, 2, 3, 4]) :=
  packet_invalid_writes_sentinel 129 1 2 3 4 7 3 COLLAR_LED 9 (Or.inl ⟨by decide, by decide⟩)

/-- C5: for every frame produced by a valid `ShockCollar::packet` call,
flipping any single bit of byte 4 in positions 7-4 (the mode-complement
field) or 3-1 (the channel-complement field) makes the receiver's
validation (`decodeFrame`) reject the frame. -/
theorem decode_rejects_complement_bitflip (b0 b1 b2 b3 b4 key : Nat) (chan : Int)
    (cmd pwr j : Nat)
    (hchan : chan = 1 ∨ chan = 2)
    (hcmd : cmd = COLLAR_LED ∨ cmd = COLLAR_BEEP ∨ cmd = COLLAR_VIB ∨ cmd = COLLAR_ZAP)
    (hj : 1 ≤ j ∧ j ≤ 7) :
    decodeFrame 0 ((packet [b0, b1, b2, b3, b4] key chan cmd pwr).2.set 4
      ((packet [b0, b1, b2, b3, b4] key chan cmd pwr).2[4]! ^^^ (1 <<< j))) = none := by
  obtain ⟨hj1, hj7⟩ := hj
  interval_cases j <;> rcases hchan with rfl | rfl <;> rcases hcmd with rfl | rfl | rfl | rfl <;>
    simp [packet, chanCodes, cmdCodes, decodeFrame, decodeMode,
      COLLAR_LED, COLLAR_BEEP, COLLAR_VIB, COLLAR_ZAP]

/-- C5 witness: flipping bit 4 of byte 4 (a mode-complement bit) of the
channel-1 ZAP frame for key 0xABCD gets the frame rejected. -/
theorem decode_rejects_complement_bitflip_witness :
    decodeFrame 0 ((packet [0, 0, 0, 0, 0] 43981 1 COLLAR_ZAP 100).2.set 4
      ((packet [0, 0, 0, 0, 0] 43981 1 COLLAR_ZAP 100).2[4]! ^^^ (1 <<< 4))) = none :=
  decode_rejects_complement_bitflip 0 0 0 0 0 43981 1 COLLAR_ZAP 100 4 (Or.inl rfl)
    (Or.inr (Or.inr (Or.inr rfl))) ⟨by decide, by decide⟩

/-- The 40-bit payload loop of `ShockCollar::send` advances the deadline
clock by exactly 1000 microseconds per bit (750+250 for a one, 250+750
for a zero), for any bit values and any injected per-pulse delays. -/
theorem sendBits_clock (pkt : List Nat) (d : Nat → Int) :
    ∀ (n bitn : Nat) (s : Int × Int), (sendBits pkt d bitn n s).1 = s.1 + 1000 * n := by
  intro n
  induction n with
  | zero => intro bitn s; simp [sendBits]
  | succ m ih =>
    intro bitn s
    rw [sendBits]
    split <;> simp [ih, sendpulse] <;> ring

/-- C9: every `ShockCollar::sendpulse` call advances the deadline clock
by exactly its nominal on+off duration, independently of the delay `d`
incurred during the call; consequently `ShockCollar::send` of any valid
frame advances the clock by exactly 2250 + 40·1000 + 1000 = 43250
microseconds, regardless of the frame's bits and of per-pulse overruns. -/
theorem transmitter_clock_discipline :
    (∀ (s : Int × Int) (tOn tOff d : Int), (sendpulse s tOn tOff d).1 = s.1 + tOn + tOff) ∧
    (∀ (pkt : List Nat) (t0 : Int) (d : Nat → Int), pkt[0]! &&& 128 ≠ 0 →
      (send pkt t0 d).map Prod.fst = some (t0 + 43250)) := by
  constructor
  · intro s tOn tOff d; rfl
  · intro pkt t0 d h
    rw [send, if_neg h]
    simp [Option.map, sendpulse, sendBits_clock]
    ring

/-- C9 witness: a single pulse advances the clock by on+off, and sending
the example frame with a constant 5-microsecond per-pulse overrun still
advances the clock by exactly 43250. -/
theorem transmitter_clock_discipline_witness :
    (sendpulse (0, 0) 10 20 3).1 = 0 + 10 + 20 ∧
    (send [129, 171, 205, 100, 126] 0 (fun _ => 5)).map Prod.fst = some (0 + 43250) :=
  ⟨transmitter_clock_discipline.1 (0, 0) 10 20 3,
   transmitter_clock_discipline.2 [129, 171, 205, 100, 126] 0 (fun _ => 5) (by decide)⟩

/-- C7: when the receiver's bit counter stands at 39 and a falling edge
classified as a data bit arrives at time `ct`, the frame is decoded only
if the signed elapsed time from the start marker is within
[37000, 42000] microseconds: outside that window `receive` returns 0
with no decode and no stored-field change; and (second conjunct) a
40000-microsecond frame does pass the gate and is accepted. -/
theorem receive_duration_gate :
    (∀ (s : RemoteState) (ct : Nat),
      s.state = 1 → s.bit = 39 →
      ((100 < sub32 ct s.pt ∧ sub32 ct s.pt < 400) ∨
       (600 < sub32 ct s.pt ∧ sub32 ct s.pt < 900)) →
      (sub32 ct s.st < 37000 ∨ 42000 < sub32 ct s.st) →
      (receive s 0 ct).1 = 0 ∧
      (receive s 0 ct).2.key = s.key ∧ (receive s 0 ct).2.chan = s.chan ∧
      (receive s 0 ct).2.command = s.command ∧ (receive s 0 ct).2.power = s.power ∧
      (receive s 0 ct).2.et = s.et) ∧
    (receive ⟨[0x81, 0xAB, 0xCD, 0x64, 0x7E], 39, 1039750, 1000000, 0, 1, 0, 0, 0, 0, 0⟩
      0 1040000).1 = 1 := by
  constructor
  · intro s ct h1 hb hw hd
    obtain ⟨pkt, bitc, pt, st, et, state, ek, k0, c0, m0, p0⟩ := s
    dsimp only at h1 hb hw hd
    subst h1 hb
    rcases hw with ⟨hwa, hwb⟩ | ⟨hwa, hwb⟩
    · simp [receive, afterBit, hwa, hwb]
      rw [if_pos hd]
      simp
    · have hnz : ¬ (100 < sub32 ct pt ∧ sub32 ct pt < 400) := by omega
      simp [receive, afterBit, hwa, hwb, hnz]
      rw [if_pos hd]
      simp
  · decide

/-- A receiver state one bit short of a full frame whose 40th falling
edge at time 1036000 closes a 36-millisecond frame (start time 1000000):
too short for the duration gate. -/
def rxShort : RemoteState :=
  ⟨[0x81, 0xAB, 0xCD, 0x64, 0x7E], 39, 1035750, 1000000, 0, 1, 0, 0, 0, 0, 0⟩

/-- C7 witness: a 36-millisecond frame is discarded with no stored-field
change. -/
theorem receive_duration_gate_witness :
    (receive rxShort 0 1036000).1 = 0 ∧
    (receive rxShort 0 1036000).2.key = rxShort.key ∧
    (receive rxShort 0 1036000).2.chan = rxShort.chan ∧
    (receive rxShort 0 1036000).2.command = rxShort.command ∧
    (receive rxShort 0 1036000).2.power = rxShort.power ∧
    (receive rxShort 0 1036000).2.et = rxShort.et :=
  receive_duration_gate.1 rxShort 1036000 rfl rfl (Or.inl (by decide)) (by decide)

/-- C6 (amended): on a duration-valid 40-bit frame that decodes to
(k, c, cmd, p), `ShockCollarRemote::receive` compares the signed 32-bit
difference between this frame's start time and the previous accepted
frame's end time against 120000 microseconds.  If it is below 120000 and
the decoded tuple equals the stored one, the call returns the repeat
code 2 and changes only the end-time bookkeeping (and the decoder
scratch state); otherwise it overwrites the four stored fields, updates
the end time, and returns 1.  (The difference is 32-bit signed, so a gap
of 2^31 microseconds or more wraps negative and also counts as
"recent".) -/
theorem receive_repeat_suppression (s : RemoteState) (ct b0 b1 b2 b3 b4 k c cmd p : Nat)
    (h1 : s.state = 1) (hb : s.bit = 39) (hp : s.pkt = [b0, b1, b2, b3, b4])
    (hw : 100 < sub32 ct s.pt ∧ sub32 ct s.pt < 400)
    (hdur : 37000 ≤ sub32 ct s.st ∧ sub32 ct s.st ≤ 42000)
    (hdec : decodeFrame s.expect_key [b0, b1, b2, b3, b4] = some (k, c, cmd, p)) :
    ((sub32 s.st s.et < 120000 ∧ k = s.key ∧ c = s.chan ∧ cmd = s.command ∧ p = s.power) →
      receive s 0 ct = (2, { s with state := 0, bit := 40, et := ct })) ∧
    (¬ (sub32 s.st s.et < 120000 ∧ k = s.key ∧ c = s.chan ∧ cmd = s.command ∧ p = s.power) →
      receive s 0 ct = (1, { s with state := 0, bit := 40, et := ct, key := k, chan := c, command := cmd, power := p })) := by
  obtain ⟨pkt, bitc, pt, st, et, state, ek, k0, c0, m0, p0⟩ := s
  dsimp only at h1 hb hp hw hdur hdec ⊢
  subst h1 hb hp
  obtain ⟨hwa, hwb⟩ := hw
  have hacc : ¬ (sub32 ct st < 37000 ∨ 42000 < sub32 ct st) := by omega
  constructor
  · intro h
    simp [receive, afterBit, hwa, hwb]
    rw [if_neg hacc]
    simp [hdec]
    exact h
  · intro h
    simp [receive, afterBit, hwa, hwb]
    rw [if_neg hacc]
    simp [hdec]
    tauto

/-- A receiver state holding a previously accepted channel-1 ZAP frame
(key 0xABCD, power 100) that ended at time 950000, now one bit short of
an identical frame started at time 1000000. -/
def rxRepeat : RemoteState :=
  ⟨[0x81, 0xAB, 0xCD, 0x64, 0x7E], 39, 1039750, 1000000, 950000, 1, 0, 43981, 1, 4, 100⟩

/-- C6 witness: completing the identical frame 50 milliseconds after the
previous one returns the repeat code 2 and only updates the end time. -/
theorem receive_repeat_suppression_witness :
    ((sub32 rxRepeat.st rxRepeat.et < 120000 ∧ 43981 = rxRepeat.key ∧ 1 = rxRepeat.chan ∧ 4 = rxRepeat.command ∧ 100 = rxRepeat.power) →
      receive rxRepeat 0 1040000 = (2, { rxRepeat with state := 0, bit := 40, et := 1040000 })) ∧
    (¬ (sub32 rxRepeat.st rxRepeat.et < 120000 ∧ 43981 = rxRepeat.key ∧ 1 = rxRepeat.chan ∧ 4 = rxRepeat.command ∧ 100 = rxRepeat.power) →
      receive rxRepeat 0 1040000 = (1, { rxRepeat with state := 0, bit := 40, et := 1040000, key := 43981, chan := 1, command := 4, power := 100 })) :=
  receive_repeat_suppression rxRepeat 1040000 0x81 0xAB 0xCD 0x64 0x7E 43981 1 4 100
    rfl rfl rfl (by decide) (by decide) (by decide)

/-- C6 (counterexample to the claim as stated): with a gap of 2^31
microseconds (about 35.8 minutes, far above 120 milliseconds) between
the previous accepted frame's end (time 0) and this identical frame's
start (time 2147483648), the claim prescribes return code 1, but
`receive` returns the repeat code 2: the 32-bit signed difference
`st - et` wraps to -2^31, which is below 120000. -/
theorem receive_gap_wraparound :
    (receive ⟨[0x81, 0xAB, 0xCD, 0x64, 0x7E], 39, 2147523398, 2147483648, 0, 1, 0, 43981, 1, 4, 100⟩ 0 2147523648).1 = 2 ∧
    120000 ≤ (2147483648 : Nat) - 0 := by
  decide

/-- C8: (a) with a non-zero expected key configured, a frame whose
16-bit key field differs is rejected by `receive` — return 0 and no
stored-field or end-time change — however valid the rest of the frame
is; (b) with `expect_key = 0`, whether `decodeFrame` accepts a frame
does not depend on the key bytes at all. -/
theorem receive_key_filter :
    (∀ (s : RemoteState) (ct b0 b1 b2 b3 b4 : Nat),
      s.state = 1 → s.bit = 39 → s.pkt = [b0, b1, b2, b3, b4] →
      (100 < sub32 ct s.pt ∧ sub32 ct s.pt < 400) →
      s.expect_key ≠ 0 → (b1 % 256) * 256 + b2 % 256 ≠ s.expect_key →
      (receive s 0 ct).1 = 0 ∧
      (receive s 0 ct).2.key = s.key ∧ (receive s 0 ct).2.chan = s.chan ∧
      (receive s 0 ct).2.command = s.command ∧ (receive s 0 ct).2.power = s.power ∧
      (receive s 0 ct).2.et = s.et) ∧
    (∀ (b0 b1 b2 b3 b4 c1 c2 : Nat),
      (decodeFrame 0 [b0, b1, b2, b3, b4]).isSome = (decodeFrame 0 [b0, c1, c2, b3, b4]).isSome) := by
  constructor
  · intro s ct b0 b1 b2 b3 b4 h1 hb hp hw hek hkne
    obtain ⟨pkt, bitc, pt, st, et, state, ek, k0, c0, m0, p0⟩ := s
    dsimp only at h1 hb hp hw hek hkne ⊢
    subst h1 hb hp
    obtain ⟨hwa, hwb⟩ := hw
    have hdecn : decodeFrame ek [b0, b1, b2, b3, b4] = none := by
      simp [decodeFrame, hek, hkne]
    simp [receive, afterBit, hwa, hwb, hdecn]
  · intro b0 b1 b2 b3 b4 c1 c2
    simp only [decodeFrame, decodeMode, apply_ite Option.isSome, Option.isSome_some,
      Option.isSome_none, ne_eq, not_true_eq_false, false_and, if_false]
    simp

/-- A receiver state expecting key 5 that has assembled 39 bits of an
otherwise perfectly valid frame carrying key 0xABCD. -/
def rxWrongKey : RemoteState :=
  ⟨[0x81, 0xAB, 0xCD, 0x64, 0x7E], 39, 1039750, 1000000, 0, 1, 5, 9, 9, 9, 9⟩

/-- C8 witness: the wrong-key frame is rejected with nothing stored, and
acceptance under `expect_key = 0` ignores the key bytes. -/
theorem receive_key_filter_witness :
    ((receive rxWrongKey 0 1040000).1 = 0 ∧
     (receive rxWrongKey 0 1040000).2.key = rxWrongKey.key ∧
     (receive rxWrongKey 0 1040000).2.chan = rxWrongKey.chan ∧
     (receive rxWrongKey 0 1040000).2.command = rxWrongKey.command ∧
     (receive rxWrongKey 0 1040000).2.power = rxWrongKey.power ∧
     (receive rxWrongKey 0 1040000).2.et = rxWrongKey.et) ∧
    (decodeFrame 0 [129, 171, 205, 100, 126]).isSome = (decodeFrame 0 [129, 0, 1, 100, 126]).isSome :=
  ⟨receive_key_filter.1 rxWrongKey 1040000 0x81 0xAB 0xCD 0x64 0x7E rfl rfl rfl
    (by decide) (by decide) (by decide),
   receive_key_filter.2 129 171 205 100 126 0 1⟩

/-- A successful `decodeFrame` only ever produces channel 1 or 2 and one
of the four valid commands. -/
theorem decodeFrame_valid_fields {e : Nat} {pkt : List Nat} {k c cmd p : Nat}
    (h : decodeFrame e pkt = some (k, c, cmd, p)) :
    (c = 1 ∨ c = 2) ∧
    (cmd = COLLAR_LED ∨ cmd = COLLAR_BEEP ∨ cmd = COLLAR_VIB ∨ cmd = COLLAR_ZAP) := by
  simp only [decodeFrame, decodeMode] at h
  split_ifs at h <;>
    first
      | exact Option.noConfusion h
      | (simp only [Option.some.injEq, Prod.mk.injEq, COLLAR_LED, COLLAR_BEEP,
          COLLAR_VIB, COLLAR_ZAP] at h ⊢; omega)

/-- The data-bit tail of `receive` returns only 0, 1 or 2, changes the
public decoded fields only when it returns 1, and then only to a valid
channel and command. -/
theorem afterBit_invariants (s : RemoteState) (bv ct : Nat) (r : Nat) (s' : RemoteState)
    (h : afterBit s bv ct = (r, s')) :
    (r = 0 ∨ r = 1 ∨ r = 2) ∧
    (r ≠ 1 → s'.key = s.key ∧ s'.chan = s.chan ∧ s'.command = s.command ∧ s'.power = s.power) ∧
    (r = 1 → (s'.chan = 1 ∨ s'.chan = 2) ∧
      (s'.command = COLLAR_LED ∨ s'.command = COLLAR_BEEP ∨ s'.command = COLLAR_VIB ∨ s'.command = COLLAR_ZAP)) := by
  simp only [afterBit] at h
  split_ifs at h
  · injection h with hr hs
    subst hr hs
    simp
  · injection h with hr hs
    subst hr hs
    simp
  · split at h
    · injection h with hr hs
      subst hr hs
      simp
    · rename_i k c cmd p heq
      split_ifs at h with hrep
      · injection h with hr hs
        subst hr hs
        simp
      · injection h with hr hs
        subst hr hs
        simpa using decodeFrame_valid_fields heq

/-- C10: `ShockCollarRemote::receive` always returns 0, 1 or 2; for any
state (in particular any state reachable from `remoteBegin` by any
sequence of edge events) the public decoded fields key, chan, command
and power are unchanged by any call that does not return 1, and a call
that returns 1 writes a channel in {1,2} and a command among
LED/BEEP/VIB/ZAP. -/
theorem receive_invariants (s : RemoteState) (b ct : Nat) (r : Nat) (s' : RemoteState)
    (h : receive s b ct = (r, s')) :
    (r = 0 ∨ r = 1 ∨ r = 2) ∧
    (r ≠ 1 → s'.key = s.key ∧ s'.chan = s.chan ∧ s'.command = s.command ∧ s'.power = s.power) ∧
    (r = 1 → (s'.chan = 1 ∨ s'.chan = 2) ∧
      (s'.command = COLLAR_LED ∨ s'.command = COLLAR_BEEP ∨ s'.command = COLLAR_VIB ∨ s'.command = COLLAR_ZAP)) := by
  simp only [receive] at h
  split_ifs at h
  · injection h with hr hs
    subst hr hs
    simp
  · injection h with hr hs
    subst hr hs
    simp
  · simpa using afterBit_invariants _ _ _ _ _ h
  · simpa using afterBit_invariants _ _ _ _ _ h
  · injection h with hr hs
    subst hr hs
    simp
  · injection h with hr hs
    subst hr hs
    simp

/-- C10 witness: a no-edge call (pin level unchanged) returns 0 and
leaves the decoded fields untouched. -/
theorem receive_invariants_witness :
    ((0 : Nat) = 0 ∨ (0 : Nat) = 1 ∨ (0 : Nat) = 2) ∧
    ((0 : Nat) ≠ 1 → rxRepeat.key = rxRepeat.key ∧ rxRepeat.chan = rxRepeat.chan ∧ rxRepeat.command = rxRepeat.command ∧ rxRepeat.power = rxRepeat.power) ∧
    ((0 : Nat) = 1 → (rxRepeat.chan = 1 ∨ rxRepeat.chan = 2) ∧
      (rxRepeat.command = COLLAR_LED ∨ rxRepeat.command = COLLAR_BEEP ∨ rxRepeat.command = COLLAR_VIB ∨ rxRepeat.command = COLLAR_ZAP)) :=
  receive_invariants rxRepeat 1 7 0 rxRepeat (by decide)

end Collar
